import Mathlib

/-!
Shallow embedding of `rust/src/python/libnmstate/clib_wrapper.py` (nmstate).

Modelling conventions:
* Python byte strings (`bytes` values held in `c_char_p` out-parameters) are
  abstracted as Lean `String`; a NULL `c_char_p.value` (Python `None`) is
  `Option.none`.  UTF-8 decoding of a non-null byte string is the identity
  under this abstraction.
* Each engine entry point (`lib.nmstate_*`) is external; a call's observable
  outcome is a response record holding the status code and the values the
  engine left in the out-parameter buffers.  Each wrapper function is embedded
  as a Lean function from such a response record to a `CallOut`: the ordered
  list of `nmstate_cstring_free` calls issued, the number of `parse_log`
  invocations, and the returned value or raised exception.
* A Python exception aborts the function at the raise point: statements after
  it (in particular the `cstring_free` calls) do not run.  This is reflected
  by matching on the result of `parse_log` before emitting the frees.
* The JSON payload handed to `parse_log` is modelled by `LogPayload`: either
  the bytes fail to decode as JSON (`json.loads` raises, which the source
  swallows) or they decode to a JSON value, modelled by the `JsonVal` tree.
-/

/-- Python exceptions that the wrapper code can raise outside the nmstate
error taxonomy: `KeyError` from a missing dict key, `TypeError` from
iterating or subscripting an unsuitable value, `AttributeError` from
calling `.decode` on `None`. -/
inductive PyExc
| keyError
| typeError
| attributeError
deriving DecidableEq, Repr

/-- Caller-facing error values, one constructor per Python exception class
imported from `.error` in the source, plus the generic `NmstateError`,
which carries its fully formatted message string. -/
inductive NmstateErrVal
| NmstateVerificationError (msg : String)
| NmstateValueError (msg : String)
| NmstateInternalError (msg : String)
| NmstatePluginError (msg : String)
| NmstateNotImplementedError (msg : String)
| NmstateKernelIntegerRoundedError (msg : String)
| NmstateNotSupportedError (msg : String)
| NmstateDependencyError (msg : String)
| NmstatePermissionError (msg : String)
| NmstateError (s : String)
deriving DecidableEq, Repr

/-- What a wrapper call can raise: an uncaught Python exception, or a raised
taxonomy error value. -/
inductive Raised
| exc (e : PyExc)
| err (e : NmstateErrVal)
deriving DecidableEq, Repr

/-- The engine-owned output buffers a wrapper function may pass to
`nmstate_cstring_free`. -/
inductive Buf
| state
| log
| err_kind
| err_msg
| configs
| diff_state
| formated_state
deriving DecidableEq, Repr

/-- Flag constants, lines 35-43 of the source. -/
def NMSTATE_FLAG_NONE : Nat := 0

/-- Flag bit for kernel-only operation. -/
def NMSTATE_FLAG_KERNEL_ONLY : Nat := 1 <<< 1

/-- Flag bit disabling post-apply verification. -/
def NMSTATE_FLAG_NO_VERIFY : Nat := 1 <<< 2

/-- Flag bit requesting status data in retrieved state. -/
def NMSTATE_FLAG_INCLUDE_STATUS_DATA : Nat := 1 <<< 3

/-- Flag bit requesting secrets in retrieved state. -/
def NMSTATE_FLAG_INCLUDE_SECRETS : Nat := 1 <<< 4

/-- Flag bit leaving the apply transaction uncommitted. -/
def NMSTATE_FLAG_NO_COMMIT : Nat := 1 <<< 5

/-- Flag bit requesting memory-only (non-persistent) application. -/
def NMSTATE_FLAG_MEMORY_ONLY : Nat := 1 <<< 6

/-- Flag bit restricting retrieval to running configuration. -/
def NMSTATE_FLAG_RUNNING_CONFIG_ONLY : Nat := 1 <<< 7

/-- Success status code (`NMSTATE_PASS = 0`). -/
def NMSTATE_PASS : Int := 0

/-- Flag word built by `retrieve_net_state_json`, lines 56-64: start from
`NMSTATE_FLAG_NONE` and OR in one bit per true keyword argument. -/
def retrieve_flags (kernel_only include_status_data include_secrets
    running_config_only : Bool) : Nat :=
  let flags := NMSTATE_FLAG_NONE
  let flags := if kernel_only then flags ||| NMSTATE_FLAG_KERNEL_ONLY else flags
  let flags := if include_status_data then
    flags ||| NMSTATE_FLAG_INCLUDE_STATUS_DATA else flags
  let flags := if include_secrets then
    flags ||| NMSTATE_FLAG_INCLUDE_SECRETS else flags
  let flags := if running_config_only then
    flags ||| NMSTATE_FLAG_RUNNING_CONFIG_ONLY else flags
  flags

/-- Flag word built by `apply_net_state`, lines 100-111: the negative-polarity
options (`verify_change`, `commit`, `save_to_disk`) set their bit when the
argument is false. -/
def apply_flags (kernel_only verify_change save_to_disk commit : Bool) : Nat :=
  let flags := NMSTATE_FLAG_NONE
  let flags := if kernel_only then flags ||| NMSTATE_FLAG_KERNEL_ONLY else flags
  let flags := if !verify_change then flags ||| NMSTATE_FLAG_NO_VERIFY else flags
  let flags := if !commit then flags ||| NMSTATE_FLAG_NO_COMMIT else flags
  let flags := if !save_to_disk then flags ||| NMSTATE_FLAG_MEMORY_ONLY else flags
  flags

/-- Dispatch of `map_error` on the decoded kind string, lines 287-306:
nine named kinds map to their error class applied to the decoded message;
any other kind falls through to `NmstateError(f"\x7berr_kind\x7d: \x7berr_msg\x7d")`. -/
def map_error_str (err_kind err_msg : String) : NmstateErrVal :=
  if err_kind = "VerificationError" then .NmstateVerificationError err_msg
  else if err_kind = "InvalidArgument" then .NmstateValueError err_msg
  else if err_kind = "Bug" then .NmstateInternalError err_msg
  else if err_kind = "PluginFailure" then .NmstatePluginError err_msg
  else if err_kind = "NotImplementedError" then .NmstateNotImplementedError err_msg
  else if err_kind = "KernelIntegerRoundedError" then
    .NmstateKernelIntegerRoundedError err_msg
  else if err_kind = "NotSupportedError" then .NmstateNotSupportedError err_msg
  else if err_kind = "DependencyError" then .NmstateDependencyError err_msg
  else if err_kind = "PermissionError" then .NmstatePermissionError err_msg
  else .NmstateError (err_kind ++ ": " ++ err_msg)

/-- Full `map_error`, lines 284-306.  The source first runs
`err_msg.decode("utf-8")`, then `err_kind.decode("utf-8")`: when either
buffer is `None` the `.decode` attribute access raises `AttributeError`
before any dispatch happens. -/
def map_error (err_kind err_msg : Option String) : Except PyExc NmstateErrVal :=
  match err_msg with
  | none => .error .attributeError
  | some msg =>
    match err_kind with
    | none => .error .attributeError
    | some kind => .ok (map_error_str kind msg)

/-- JSON values as produced by `json.loads`. -/
inductive JsonVal
| null
| bool (b : Bool)
| num (n : Int)
| str (s : String)
| arr (l : List JsonVal)
| obj (kvs : List (String × JsonVal))

/-- Outcome of `logs.decode("utf-8")` followed by `json.loads` on a non-null
log buffer: either some step raises (caught by the source's `try`), or a
JSON value is produced. -/
inductive LogPayload
| undecodable
| decoded (v : JsonVal)

/-- Log levels forwarded to the `logging` facility, lines 322-329. -/
inductive Level
| error
| warn
| info
| debug
deriving DecidableEq, Repr

/-- One bridged log record: the three values interpolated into the message
f-string plus the classified level. -/
structure LogRecord where
  time : JsonVal
  file : JsonVal
  msg : JsonVal
  level : Level

/-- Python `for x in v` over a JSON-derived value: lists yield elements,
strings yield one-character strings, dicts yield their keys, everything
else raises `TypeError`. -/
def pyIter : JsonVal → Except PyExc (List JsonVal)
| .arr l => .ok l
| .str s => .ok (s.toList.map (fun c => .str (String.singleton c)))
| .obj kvs => .ok (kvs.map (fun kv => .str kv.1))
| _ => .error .typeError

/-- Python `v[k]` with a string key: dict lookup (missing key raises
`KeyError`); any non-dict raises `TypeError` (string and list require
integer indices, scalars are not subscriptable). -/
def pyGetItem : JsonVal → String → Except PyExc JsonVal
| .obj kvs, k =>
  match kvs.lookup k with
  | some v => .ok v
  | none => .error .keyError
| _, _ => .error .typeError

/-- Level classification of `log_entry["level"]`: the equality tests against
`"ERROR"`, `"WARN"`, `"INFO"` only succeed on those exact strings, any
other value (or non-string) falls to `logging.debug`. -/
def levelOf (lv : JsonVal) : Level :=
  match lv with
  | .str s =>
    if s = "ERROR" then .error
    else if s = "WARN" then .warn
    else if s = "INFO" then .info
    else .debug
  | _ => .debug

/-- One iteration of the `for log_entry in log_entries` loop body,
lines 318-329: the subscripts `["time"]`, `["file"]`, `["msg"]`,
`["level"]` are evaluated in source order and any of them may raise. -/
def parse_entry (e : JsonVal) : Except PyExc LogRecord := do
  let t ← pyGetItem e "time"
  let f ← pyGetItem e "file"
  let m ← pyGetItem e "msg"
  let lv ← pyGetItem e "level"
  .ok { time := t, file := f, msg := m, level := levelOf lv }

/-- The whole loop over the decoded entries: an exception in any iteration
aborts the loop (and `parse_log`). -/
def run_entries : List JsonVal → Except PyExc (List LogRecord)
| [] => .ok []
| e :: rest =>
  match parse_entry e with
  | .error ex => .error ex
  | .ok r =>
    match run_entries rest with
    | .error ex => .error ex
    | .ok rs => .ok (r :: rs)

/-- Embedding of `parse_log`, lines 309-329.  A `None` payload returns at
once.  The `try` block wraps only `json.loads(logs.decode("utf-8"))`, so a
decode failure leaves `log_entries = []` and the loop is a no-op, but once a
JSON value is produced, iterating it and subscripting the entries happen
outside the `try` and their exceptions propagate to the caller. -/
def parse_log (logs : Option LogPayload) : Except PyExc (List LogRecord) :=
  match logs with
  | none => .ok []
  | some .undecodable => .ok []
  | some (.decoded v) => do
    let entries ← pyIter v
    run_entries entries

/-- Python bytes repr abstraction used by the f-string in
`retrieve_net_state_json`: `None` prints as `None`, a byte string as its
`b`-quoted form (escaping inside the quotes is below this abstraction). -/
def py_fmt_opt_bytes : Option String → String
| none => "None"
| some s =>
  "b" ++ String.singleton (Char.ofNat 39) ++ s ++ String.singleton (Char.ofNat 39)

/-- Observable outcome of one wrapper call: the ordered `nmstate_cstring_free`
calls issued, the number of `parse_log` invocations, and the value returned
or the exception/error raised. -/
structure CallOut (α : Type) where
  frees : List Buf
  log_calls : Nat
  result : Except Raised α
deriving Repr

/-- Out-parameters of `lib.nmstate_net_state_retrieve`: status code plus the
state, log, error-kind and error-message buffers. -/
structure RetrieveResp where
  rc : Int
  state : Option String
  log : Option LogPayload
  err_kind : Option String
  err_msg : Option String

/-- Out-parameters of `lib.nmstate_net_state_apply` (the state document is an
input, not an engine-owned output). -/
structure ApplyResp where
  rc : Int
  log : Option LogPayload
  err_kind : Option String
  err_msg : Option String

/-- Out-parameters of `lib.nmstate_checkpoint_commit` and
`lib.nmstate_checkpoint_rollback`. -/
structure CheckpointResp where
  rc : Int
  log : Option LogPayload
  err_kind : Option String
  err_msg : Option String

/-- Out-parameters of `lib.nmstate_generate_configurations`. -/
structure GenConfResp where
  rc : Int
  configs : Option String
  log : Option LogPayload
  err_kind : Option String
  err_msg : Option String

/-- Out-parameters of `lib.nmstate_generate_differences`: note there is no
log out-parameter in this entry point. -/
structure GenDiffResp where
  rc : Int
  diff_state : Option String
  err_kind : Option String
  err_msg : Option String

/-- Out-parameters of `lib.nmstate_net_state_format`: no log out-parameter. -/
structure FormatResp where
  rc : Int
  formated_state : Option String
  err_kind : Option String
  err_msg : Option String

/-- Out-parameters of `lib.nmstate_net_state_from_policy`. -/
structure PolicyResp where
  rc : Int
  state : Option String
  log : Option LogPayload
  err_kind : Option String
  err_msg : Option String

/-- Embedding of `retrieve_net_state_json`, lines 46-85.  After the engine
call the source copies the buffer values, runs `parse_log` (whose exception
would skip everything after it), frees `c_log`, `c_state`, `c_err_kind`,
`c_err_msg` in that order, raises a bare `NmstateError` on nonzero status
with the raw (undecoded, possibly `None`) kind and message interpolated,
and otherwise returns `state.decode("utf-8")` (`AttributeError` when the
state buffer is `None`). -/
def retrieve_net_state_json (e : RetrieveResp) : CallOut String :=
  match parse_log e.log with
  | .error ex => { frees := [], log_calls := 1, result := .error (.exc ex) }
  | .ok _ =>
    let frees := [Buf.log, Buf.state, Buf.err_kind, Buf.err_msg]
    if e.rc ≠ NMSTATE_PASS then
      { frees := frees, log_calls := 1,
        result := .error (.err (.NmstateError
          (py_fmt_opt_bytes e.err_kind ++ ": " ++ py_fmt_opt_bytes e.err_msg))) }
    else
      match e.state with
      | none => { frees := frees, log_calls := 1, result := .error (.exc .attributeError) }
      | some s => { frees := frees, log_calls := 1, result := .ok s }

/-- Embedding of `apply_net_state`, lines 88-128.  The flag word is built
from the keyword arguments (lines 100-111) and sent to the engine; the
response is otherwise independent of the flags here since the engine is
external.  The source frees `c_log`, `c_err_kind`, `c_err_msg`, raises
`map_error(err_kind, err_msg)` on nonzero status, and falls off the end on
success: it returns Python `None`, modelled as `Option.none` — there is no
checkpoint out-parameter anywhere in the call. -/
def apply_net_state (kernel_only verify_change save_to_disk commit : Bool)
    (e : ApplyResp) : CallOut (Option String) :=
  let _flags := apply_flags kernel_only verify_change save_to_disk commit
  match parse_log e.log with
  | .error ex => { frees := [], log_calls := 1, result := .error (.exc ex) }
  | .ok _ =>
    let frees := [Buf.log, Buf.err_kind, Buf.err_msg]
    if e.rc ≠ NMSTATE_PASS then
      match map_error e.err_kind e.err_msg with
      | .error ex => { frees := frees, log_calls := 1, result := .error (.exc ex) }
      | .ok v => { frees := frees, log_calls := 1, result := .error (.err v) }
    else
      { frees := frees, log_calls := 1, result := .ok none }

/-- Embedding of `commit_checkpoint`, lines 131-151: frees `c_log`,
`c_err_kind`, `c_err_msg`; raises `map_error` on nonzero status; returns
`None` (unit) on success. -/
def commit_checkpoint (e : CheckpointResp) : CallOut Unit :=
  match parse_log e.log with
  | .error ex => { frees := [], log_calls := 1, result := .error (.exc ex) }
  | .ok _ =>
    let frees := [Buf.log, Buf.err_kind, Buf.err_msg]
    if e.rc ≠ NMSTATE_PASS then
      match map_error e.err_kind e.err_msg with
      | .error ex => { frees := frees, log_calls := 1, result := .error (.exc ex) }
      | .ok v => { frees := frees, log_calls := 1, result := .error (.err v) }
    else
      { frees := frees, log_calls := 1, result := .ok () }

/-- Embedding of `rollback_checkpoint`, lines 154-174: identical shape to
`commit_checkpoint`. -/
def rollback_checkpoint (e : CheckpointResp) : CallOut Unit :=
  match parse_log e.log with
  | .error ex => { frees := [], log_calls := 1, result := .error (.exc ex) }
  | .ok _ =>
    let frees := [Buf.log, Buf.err_kind, Buf.err_msg]
    if e.rc ≠ NMSTATE_PASS then
      match map_error e.err_kind e.err_msg with
      | .error ex => { frees := frees, log_calls := 1, result := .error (.exc ex) }
      | .ok v => { frees := frees, log_calls := 1, result := .error (.err v) }
    else
      { frees := frees, log_calls := 1, result := .ok () }

/-- Embedding of `gen_conf`, lines 177-201: the source frees `c_log`,
`c_err_kind`, `c_err_msg` — it never frees `c_configs`, the primary result
buffer.  On success it returns `configs.decode("utf-8")`. -/
def gen_conf (e : GenConfResp) : CallOut String :=
  match parse_log e.log with
  | .error ex => { frees := [], log_calls := 1, result := .error (.exc ex) }
  | .ok _ =>
    let frees := [Buf.log, Buf.err_kind, Buf.err_msg]
    if e.rc ≠ NMSTATE_PASS then
      match map_error e.err_kind e.err_msg with
      | .error ex => { frees := frees, log_calls := 1, result := .error (.exc ex) }
      | .ok v => { frees := frees, log_calls := 1, result := .error (.err v) }
    else
      match e.configs with
      | none => { frees := frees, log_calls := 1, result := .error (.exc .attributeError) }
      | some s => { frees := frees, log_calls := 1, result := .ok s }

/-- Embedding of `gen_diff`, lines 204-226: there is no log buffer and no
`parse_log` call; the source frees `c_err_kind`, `c_err_msg` only — it never
frees `c_diff_state`.  On success it returns `diff_state.decode("utf-8")`. -/
def gen_diff (e : GenDiffResp) : CallOut String :=
  let frees := [Buf.err_kind, Buf.err_msg]
  if e.rc ≠ NMSTATE_PASS then
    match map_error e.err_kind e.err_msg with
    | .error ex => { frees := frees, log_calls := 0, result := .error (.exc ex) }
    | .ok v => { frees := frees, log_calls := 0, result := .error (.err v) }
  else
    match e.diff_state with
    | none => { frees := frees, log_calls := 0, result := .error (.exc .attributeError) }
    | some s => { frees := frees, log_calls := 0, result := .ok s }

/-- Embedding of `net_state_serialize`, lines 229-252: no log buffer, no
`parse_log`; frees `c_err_kind`, `c_err_msg` only — never
`c_formated_state`.  The `use_yaml` argument selects the input encoding
only and does not affect the observable outcome shape. -/
def net_state_serialize (use_yaml : Bool) (e : FormatResp) : CallOut String :=
  let _ := use_yaml
  let frees := [Buf.err_kind, Buf.err_msg]
  if e.rc ≠ NMSTATE_PASS then
    match map_error e.err_kind e.err_msg with
    | .error ex => { frees := frees, log_calls := 0, result := .error (.exc ex) }
    | .ok v => { frees := frees, log_calls := 0, result := .error (.err v) }
  else
    match e.formated_state with
    | none => { frees := frees, log_calls := 0, result := .error (.exc .attributeError) }
    | some s => { frees := frees, log_calls := 0, result := .ok s }

/-- Embedding of `net_state_from_policy`, lines 255-281: frees `c_log`,
`c_err_kind`, `c_err_msg` — it never frees the output `c_state` buffer.  On
success it returns `state.decode("utf-8")`. -/
def net_state_from_policy (e : PolicyResp) : CallOut String :=
  match parse_log e.log with
  | .error ex => { frees := [], log_calls := 1, result := .error (.exc ex) }
  | .ok _ =>
    let frees := [Buf.log, Buf.err_kind, Buf.err_msg]
    if e.rc ≠ NMSTATE_PASS then
      match map_error e.err_kind e.err_msg with
      | .error ex => { frees := frees, log_calls := 1, result := .error (.exc ex) }
      | .ok v => { frees := frees, log_calls := 1, result := .error (.err v) }
    else
      match e.state with
      | none => { frees := frees, log_calls := 1, result := .error (.exc .attributeError) }
      | some s => { frees := frees, log_calls := 1, result := .ok s }

/-- True when an `Except` computation succeeded. -/
def except_ok {ε α : Type} (r : Except ε α) : Bool :=
  match r with
  | .ok _ => true
  | .error _ => false

/-- True when a call outcome is a raised exception or error. -/
def is_err {α : Type} (r : Except Raised α) : Bool :=
  match r with
  | .ok _ => false
  | .error _ => true

/-- A call outcome delivers a usable checkpoint handle when its result is a
successful return of an actual (non-`None`) byte string. -/
def returns_checkpoint (c : CallOut (Option String)) : Prop :=
  ∃ h, c.result = .ok (some h)

deriving instance DecidableEq for Except

/-- Proposition that a log payload makes `parse_log` complete normally. -/
def log_ok (p : Option LogPayload) : Prop :=
  ∃ l, parse_log p = Except.ok l

/-- A well-formed decoded log entry carrying all four required fields. -/
def good_log_entry : JsonVal :=
  .obj [("time", .str "t"), ("file", .str "f"), ("msg", .str "m"),
    ("level", .str "INFO")]

/-- C5: for every combination of boolean options the flag word sent to the
engine equals the bitwise OR of the individual selected bits
(kernel_only→1<<1, no-verify→1<<2 iff verify_change=false,
include_status_data→1<<3, include_secrets→1<<4, no-commit→1<<5 iff
commit=false, memory-only→1<<6 iff save_to_disk=false,
running_config_only→1<<7), and with all parameters at their defaults the
encoded word is zero. -/
theorem flag_word_encoding :
    (∀ k i s r : Bool,
      retrieve_flags k i s r =
        ((if k then 1 <<< 1 else 0) ||| (if i then 1 <<< 3 else 0) |||
         (if s then 1 <<< 4 else 0) ||| (if r then 1 <<< 7 else 0))) ∧
    (∀ k v sd c : Bool,
      apply_flags k v sd c =
        ((if k then 1 <<< 1 else 0) ||| (if v then 0 else 1 <<< 2) |||
         (if c then 0 else 1 <<< 5) ||| (if sd then 0 else 1 <<< 6))) ∧
    retrieve_flags false false false false = 0 ∧
    apply_flags false true true true = 0 := by
  refine ⟨?_, ?_, rfl, rfl⟩ <;> decide

/-- C10: every flag word the wrapper can send has bit 0 clear and is below
256; retrieval only ever sets bits {1,3,4,7}, apply only bits {1,2,5,6},
so apart from the shared kernel-only bit the two vocabularies are
disjoint. -/
theorem flag_word_bit_invariants :
    ∀ k i s r kv vc sd cm : Bool,
      retrieve_flags k i s r % 2 = 0 ∧
      retrieve_flags k i s r < 256 ∧
      apply_flags kv vc sd cm % 2 = 0 ∧
      apply_flags kv vc sd cm < 256 ∧
      retrieve_flags k i s r &&& 101 = 0 ∧
      apply_flags kv vc sd cm &&& 153 = 0 ∧
      (retrieve_flags k i s r &&& apply_flags kv vc sd cm) &&& 253 = 0 := by
  decide

/-- C2: the error mapping is total over decoded (kind, message) strings:
each of the nine tabled kinds yields its named error variant with the
message carried through unchanged, and every other kind yields the generic
variant whose value still contains both the kind and the message
verbatim. -/
theorem map_error_total_mapping :
    ∀ kind msg : String,
      map_error_str "VerificationError" msg = .NmstateVerificationError msg ∧
      map_error_str "InvalidArgument" msg = .NmstateValueError msg ∧
      map_error_str "Bug" msg = .NmstateInternalError msg ∧
      map_error_str "PluginFailure" msg = .NmstatePluginError msg ∧
      map_error_str "NotImplementedError" msg = .NmstateNotImplementedError msg ∧
      map_error_str "KernelIntegerRoundedError" msg
        = .NmstateKernelIntegerRoundedError msg ∧
      map_error_str "NotSupportedError" msg = .NmstateNotSupportedError msg ∧
      map_error_str "DependencyError" msg = .NmstateDependencyError msg ∧
      map_error_str "PermissionError" msg = .NmstatePermissionError msg ∧
      (kind ∉ ["VerificationError", "InvalidArgument", "Bug", "PluginFailure",
          "NotImplementedError", "KernelIntegerRoundedError",
          "NotSupportedError", "DependencyError", "PermissionError"] →
        map_error_str kind msg = .NmstateError (kind ++ ": " ++ msg) ∧
        (∃ suf, kind ++ ": " ++ msg = kind ++ suf) ∧
        (∃ pre, kind ++ ": " ++ msg = pre ++ msg)) := by
  intro kind msg
  refine ⟨rfl, rfl, rfl, rfl, rfl, rfl, rfl, rfl, rfl, ?_⟩
  intro h
  simp only [List.mem_cons, List.not_mem_nil, or_false, not_or] at h
  obtain ⟨h1, h2, h3, h4, h5, h6, h7, h8, h9⟩ := h
  refine ⟨?_, ⟨": " ++ msg, (String.append_assoc kind ": " msg)⟩,
    ⟨kind ++ ": ", rfl⟩⟩
  simp [map_error_str, h1, h2, h3, h4, h5, h6, h7, h8, h9]

/-- Witness for C2's generic arm at the concrete unlisted kind
`"Timeout"`. -/
theorem map_error_total_mapping_witness :
    map_error_str "Timeout" "m" = .NmstateError ("Timeout" ++ ": " ++ "m") ∧
    (∃ suf, "Timeout" ++ ": " ++ "m" = "Timeout" ++ suf) ∧
    (∃ pre, "Timeout" ++ ": " ++ "m" = pre ++ "m") :=
  (map_error_total_mapping "Timeout" "m").2.2.2.2.2.2.2.2.2 (by decide)

/-- C6: `gen_diff` and `net_state_serialize` never invoke `parse_log` on any
engine outcome, while retrieve, apply, checkpoint commit/rollback, config
generation and policy evaluation invoke it exactly once per call, on both
the success and the failure path. -/
theorem log_bridge_invocations :
    (∀ e : GenDiffResp, (gen_diff e).log_calls = 0) ∧
    (∀ (u : Bool) (e : FormatResp), (net_state_serialize u e).log_calls = 0) ∧
    (∀ e : RetrieveResp, (retrieve_net_state_json e).log_calls = 1) ∧
    (∀ (ko vc sd cm : Bool) (e : ApplyResp),
      (apply_net_state ko vc sd cm e).log_calls = 1) ∧
    (∀ e : CheckpointResp, (commit_checkpoint e).log_calls = 1) ∧
    (∀ e : CheckpointResp, (rollback_checkpoint e).log_calls = 1) ∧
    (∀ e : GenConfResp, (gen_conf e).log_calls = 1) ∧
    (∀ e : PolicyResp, (net_state_from_policy e).log_calls = 1) := by
  refine ⟨?_, ?_, ?_, ?_, ?_, ?_, ?_, ?_⟩
  · intro e
    unfold gen_diff
    split <;> (try split) <;> rfl
  · intro u e
    unfold net_state_serialize
    split <;> (try split) <;> rfl
  · intro e
    unfold retrieve_net_state_json
    split <;> (try split) <;> (try split) <;> rfl
  · intro ko vc sd cm e
    unfold apply_net_state
    split <;> (try split) <;> (try split) <;> rfl
  · intro e
    unfold commit_checkpoint
    split <;> (try split) <;> (try split) <;> rfl
  · intro e
    unfold rollback_checkpoint
    split <;> (try split) <;> (try split) <;> rfl
  · intro e
    unfold gen_conf
    split <;> (try split) <;> (try split) <;> rfl
  · intro e
    unfold net_state_from_policy
    split <;> (try split) <;> (try split) <;> rfl

/-- C9: `map_error` is only defined on non-null kind and message buffers:
with either buffer `None` it raises `AttributeError` (the `.decode` call on
`None`), and a failing apply whose engine left a null error buffer
propagates that `AttributeError` to the caller instead of a taxonomy
error. -/
theorem map_error_none_attribute_error :
    (∀ k m : Option String, (k = none ∨ m = none) →
      map_error k m = .error .attributeError) ∧
    (∀ (ko vc sd cm : Bool) (e : ApplyResp), log_ok e.log →
      e.rc ≠ NMSTATE_PASS → (e.err_kind = none ∨ e.err_msg = none) →
      (apply_net_state ko vc sd cm e).result = .error (.exc .attributeError)) := by
  constructor
  · rintro k m (rfl | rfl)
    · cases m <;> rfl
    · rfl
  · rintro ko vc sd cm e ⟨l, hl⟩ hrc hnone
    have hm : map_error e.err_kind e.err_msg = .error .attributeError := by
      rcases hnone with h | h
      · rw [h]
        cases e.err_msg <;> rfl
      · rw [h]
        cases e.err_kind <;> rfl
    unfold apply_net_state
    simp only [hl, hm, if_pos hrc]

/-- Witness for C9 at a concrete failing apply with a null error-kind
buffer. -/
theorem map_error_none_attribute_error_witness :
    map_error none (some "m") = .error .attributeError ∧
    (apply_net_state false true true true
        { rc := 1, log := none, err_kind := none, err_msg := some "m" }).result
      = .error (.exc .attributeError) :=
  ⟨map_error_none_attribute_error.1 none (some "m") (Or.inl rfl),
   map_error_none_attribute_error.2 false true true true
     { rc := 1, log := none, err_kind := none, err_msg := some "m" }
     ⟨[], rfl⟩ (by decide) (Or.inl rfl)⟩

/-- C1 counterexample: a successful apply with `commit=false` returns Python
`None` — the call has no checkpoint out-parameter, so the caller never
receives a checkpoint handle, contradicting the claim that
`commit=false` plus success always returns one. -/
theorem apply_commit_false_success_returns_none_cex :
    (apply_net_state false true true false
        { rc := 0, log := none, err_kind := some "k", err_msg := some "m" }).result
      = .ok none ∧
    ¬ returns_checkpoint (apply_net_state false true true false
        { rc := 0, log := none, err_kind := some "k", err_msg := some "m" }) := by
  refine ⟨rfl, ?_⟩
  rintro ⟨h, hh⟩
  simp only [show (apply_net_state false true true false
      { rc := 0, log := none, err_kind := some "k", err_msg := some "m" }).result
      = Except.ok none from rfl] at hh
  exact Option.noConfusion (Except.ok.inj hh)

/-- C1 amended: `apply_net_state` never returns a usable checkpoint handle at
all.  With `commit=true` no handle is returned (as claimed), and with
`commit=false` a successful apply also returns `None`: the transaction is
left pending engine-side and the caller addresses it through Checkpoint
Control without a handle from this call. -/
theorem apply_never_returns_checkpoint :
    ∀ (ko vc sd cm : Bool) (e : ApplyResp), log_ok e.log →
      e.rc = NMSTATE_PASS →
      (apply_net_state ko vc sd cm e).result = .ok none := by
  rintro ko vc sd cm e ⟨l, hl⟩ hrc
  unfold apply_net_state
  simp [hl, hrc]

/-- Witness for C1's amended statement at a concrete successful
`commit=false` apply. -/
theorem apply_never_returns_checkpoint_witness :
    (apply_net_state false true true false
        { rc := 0, log := some .undecodable, err_kind := some "k",
          err_msg := some "m" }).result = .ok none :=
  apply_never_returns_checkpoint false true true false
    { rc := 0, log := some .undecodable, err_kind := some "k",
      err_msg := some "m" }
    ⟨[], rfl⟩ rfl

/-- C7 counterexample: a failing retrieval whose engine-reported kind is
`PermissionError` raises the generic `NmstateError`, not the
`NmstatePermissionError` variant the §4.1 mapping would produce — the
source raises `NmstateError(...)` directly without calling `map_error`. -/
theorem retrieve_permission_error_generic_cex :
    (retrieve_net_state_json
        { rc := 1, state := none, log := none,
          err_kind := some "PermissionError", err_msg := some "denied" }).result
      = .error (.err (.NmstateError
          (py_fmt_opt_bytes (some "PermissionError") ++ ": "
            ++ py_fmt_opt_bytes (some "denied")))) ∧
    (retrieve_net_state_json
        { rc := 1, state := none, log := none,
          err_kind := some "PermissionError", err_msg := some "denied" }).result
      ≠ .error (.err (.NmstatePermissionError "denied")) := by
  exact ⟨rfl, by decide⟩

/-- C7 amended: every failing retrieval raises the generic `NmstateError`
variant, built from the raw (undecoded) kind and message buffers, for every
engine-reported kind — including the tabled ones — because
`retrieve_net_state_json` bypasses `map_error`. -/
theorem retrieve_raises_generic_error :
    ∀ e : RetrieveResp, log_ok e.log → e.rc ≠ NMSTATE_PASS →
      (retrieve_net_state_json e).result
        = .error (.err (.NmstateError
            (py_fmt_opt_bytes e.err_kind ++ ": " ++ py_fmt_opt_bytes e.err_msg))) := by
  rintro e ⟨l, hl⟩ hrc
  unfold retrieve_net_state_json
  simp [hl, hrc]

/-- Witness for C7's amended statement at a concrete failing retrieval with
null error buffers. -/
theorem retrieve_raises_generic_error_witness :
    (retrieve_net_state_json
        { rc := 2, state := none, log := none, err_kind := none,
          err_msg := none }).result
      = .error (.err (.NmstateError
          (py_fmt_opt_bytes none ++ ": " ++ py_fmt_opt_bytes none))) :=
  retrieve_raises_generic_error
    { rc := 2, state := none, log := none, err_kind := none, err_msg := none }
    ⟨[], rfl⟩ (by decide)

/-- C4 counterexample: the `try` in `parse_log` only wraps `json.loads`, so a
payload that decodes to a list with a record lacking the required fields
raises `KeyError` from `log_entry["time"]`, and a payload decoding to a
non-iterable JSON value (a number) raises `TypeError` from the `for` loop
— both contradict the claim that the log bridge never raises. -/
theorem parse_log_missing_fields_raises_cex :
    parse_log (some (.decoded (.arr [.obj []]))) = .error .keyError ∧
    parse_log (some (.decoded (.num 5))) = .error .typeError :=
  ⟨rfl, rfl⟩

/-- C4 amended: `parse_log` completes without raising on a missing (`None`)
payload and on any payload whose decode-plus-`json.loads` step fails (the
undecodable case yields the empty record sequence), and on any decoded JSON
list all of whose entries carry the four required fields; but exceptions
from iterating a non-list JSON value or from subscripting a deficient
entry occur outside the `try` block and do propagate. -/
theorem parse_log_defensive_amended :
    parse_log none = .ok [] ∧
    parse_log (some .undecodable) = .ok [] ∧
    (∀ l : List JsonVal, (∀ e ∈ l, except_ok (parse_entry e) = true) →
      ∃ recs, parse_log (some (.decoded (.arr l))) = .ok recs) := by
  refine ⟨rfl, rfl, ?_⟩
  intro l h
  suffices h2 : ∃ recs, run_entries l = .ok recs by
    obtain ⟨recs, hr⟩ := h2
    exact ⟨recs, by rw [show parse_log (some (.decoded (.arr l)))
      = run_entries l from rfl, hr]⟩
  induction l with
  | nil => exact ⟨[], rfl⟩
  | cons e rest ih =>
    have he : except_ok (parse_entry e) = true := h e (List.mem_cons_self e rest)
    obtain ⟨r, hr⟩ : ∃ r, parse_entry e = .ok r := by
      cases hpe : parse_entry e with
      | ok r => exact ⟨r, rfl⟩
      | error ex =>
        rw [hpe] at he
        exact absurd he (by simp [except_ok])
    obtain ⟨rs, hrs⟩ := ih (fun x hx => h x (List.mem_cons_of_mem e hx))
    exact ⟨r :: rs, by simp [run_entries, hr, hrs]⟩

/-- Witness for C4's amended statement on a singleton well-formed entry
list. -/
theorem parse_log_defensive_amended_witness :
    ∃ recs, parse_log (some (.decoded (.arr [good_log_entry]))) = .ok recs :=
  parse_log_defensive_amended.2.2 [good_log_entry]
    (by
      intro e he
      rw [List.mem_singleton] at he
      subst he
      rfl)

/-- C3 counterexample: a successful diff frees only the two error buffers —
two releases though three buffers (diff text, error kind, error message)
could have been populated, and the primary `diff_state` buffer is never
released. -/
theorem gen_diff_free_count_cex :
    (gen_diff
      { rc := 0, diff_state := some "d", err_kind := some "k",
        err_msg := some "m" }).frees = [Buf.err_kind, Buf.err_msg] ∧
    (gen_diff
      { rc := 0, diff_state := some "d", err_kind := some "k",
        err_msg := some "m" }).frees.length ≠ 3 ∧
    Buf.diff_state ∉ (gen_diff
      { rc := 0, diff_state := some "d", err_kind := some "k",
        err_msg := some "m" }).frees := by
  refine ⟨rfl, by decide, by decide⟩

/-- C3 amended: on every exit path where the log payload parses without
raising, retrieve frees all four of its output buffers exactly once and
apply and checkpoint commit/rollback free their three; but `gen_conf`,
`gen_diff`, `net_state_serialize` and `net_state_from_policy` free only
their log/error buffers and never release their primary result buffer; and
when `parse_log` raises, no release at all is issued. -/
theorem free_discipline_amended :
    (∀ e : RetrieveResp, log_ok e.log →
      (retrieve_net_state_json e).frees
        = [Buf.log, Buf.state, Buf.err_kind, Buf.err_msg]) ∧
    (∀ (ko vc sd cm : Bool) (e : ApplyResp), log_ok e.log →
      (apply_net_state ko vc sd cm e).frees
        = [Buf.log, Buf.err_kind, Buf.err_msg]) ∧
    (∀ e : CheckpointResp, log_ok e.log →
      (commit_checkpoint e).frees = [Buf.log, Buf.err_kind, Buf.err_msg]) ∧
    (∀ e : CheckpointResp, log_ok e.log →
      (rollback_checkpoint e).frees = [Buf.log, Buf.err_kind, Buf.err_msg]) ∧
    (∀ e : GenConfResp, log_ok e.log →
      (gen_conf e).frees = [Buf.log, Buf.err_kind, Buf.err_msg] ∧
      Buf.configs ∉ (gen_conf e).frees) ∧
    (∀ e : GenDiffResp,
      (gen_diff e).frees = [Buf.err_kind, Buf.err_msg] ∧
      Buf.diff_state ∉ (gen_diff e).frees) ∧
    (∀ (u : Bool) (e : FormatResp),
      (net_state_serialize u e).frees = [Buf.err_kind, Buf.err_msg] ∧
      Buf.formated_state ∉ (net_state_serialize u e).frees) ∧
    (∀ e : PolicyResp, log_ok e.log →
      (net_state_from_policy e).frees = [Buf.log, Buf.err_kind, Buf.err_msg] ∧
      Buf.state ∉ (net_state_from_policy e).frees) ∧
    (∀ e : RetrieveResp, (∀ l, parse_log e.log ≠ .ok l) →
      (retrieve_net_state_json e).frees = []) ∧
    (∀ (ko vc sd cm : Bool) (e : ApplyResp), (∀ l, parse_log e.log ≠ .ok l) →
      (apply_net_state ko vc sd cm e).frees = []) ∧
    (∀ e : CheckpointResp, (∀ l, parse_log e.log ≠ .ok l) →
      (commit_checkpoint e).frees = []) ∧
    (∀ e : CheckpointResp, (∀ l, parse_log e.log ≠ .ok l) →
      (rollback_checkpoint e).frees = []) ∧
    (∀ e : GenConfResp, (∀ l, parse_log e.log ≠ .ok l) →
      (gen_conf e).frees = []) ∧
    (∀ e : PolicyResp, (∀ l, parse_log e.log ≠ .ok l) →
      (net_state_from_policy e).frees = []) := by
  refine ⟨?_, ?_, ?_, ?_, ?_, ?_, ?_, ?_, ?_, ?_, ?_, ?_, ?_, ?_⟩
  · rintro e ⟨l, hl⟩
    unfold retrieve_net_state_json
    simp only [hl]
    split <;> (try split) <;> rfl
  · rintro ko vc sd cm e ⟨l, hl⟩
    unfold apply_net_state
    simp only [hl]
    split <;> (try split) <;> rfl
  · rintro e ⟨l, hl⟩
    unfold commit_checkpoint
    simp only [hl]
    split <;> (try split) <;> rfl
  · rintro e ⟨l, hl⟩
    unfold rollback_checkpoint
    simp only [hl]
    split <;> (try split) <;> rfl
  · rintro e ⟨l, hl⟩
    have hf : (gen_conf e).frees = [Buf.log, Buf.err_kind, Buf.err_msg] := by
      unfold gen_conf
      simp only [hl]
      split <;> (try split) <;> rfl
    refine ⟨hf, ?_⟩
    rw [hf]
    decide
  · intro e
    have hf : (gen_diff e).frees = [Buf.err_kind, Buf.err_msg] := by
      unfold gen_diff
      split <;> (try split) <;> rfl
    refine ⟨hf, ?_⟩
    rw [hf]
    decide
  · intro u e
    have hf : (net_state_serialize u e).frees = [Buf.err_kind, Buf.err_msg] := by
      unfold net_state_serialize
      split <;> (try split) <;> rfl
    refine ⟨hf, ?_⟩
    rw [hf]
    decide
  · rintro e ⟨l, hl⟩
    have hf : (net_state_from_policy e).frees
        = [Buf.log, Buf.err_kind, Buf.err_msg] := by
      unfold net_state_from_policy
      simp only [hl]
      split <;> (try split) <;> rfl
    refine ⟨hf, ?_⟩
    rw [hf]
    decide
  · intro e hfail
    unfold retrieve_net_state_json
    cases hp : parse_log e.log with
    | error ex => rfl
    | ok l => exact absurd hp (hfail l)
  · intro ko vc sd cm e hfail
    unfold apply_net_state
    cases hp : parse_log e.log with
    | error ex => rfl
    | ok l => exact absurd hp (hfail l)
  · intro e hfail
    unfold commit_checkpoint
    cases hp : parse_log e.log with
    | error ex => rfl
    | ok l => exact absurd hp (hfail l)
  · intro e hfail
    unfold rollback_checkpoint
    cases hp : parse_log e.log with
    | error ex => rfl
    | ok l => exact absurd hp (hfail l)
  · intro e hfail
    unfold gen_conf
    cases hp : parse_log e.log with
    | error ex => rfl
    | ok l => exact absurd hp (hfail l)
  · intro e hfail
    unfold net_state_from_policy
    cases hp : parse_log e.log with
    | error ex => rfl
    | ok l => exact absurd hp (hfail l)

/-- Witness for C3's amended statement at concrete calls, including the
no-free path taken when the log payload raises inside `parse_log`. -/
theorem free_discipline_amended_witness :
    (retrieve_net_state_json
      { rc := 0, state := some "s", log := none, err_kind := none,
        err_msg := none }).frees
      = [Buf.log, Buf.state, Buf.err_kind, Buf.err_msg] ∧
    (apply_net_state false true true true
      { rc := 0, log := none, err_kind := none, err_msg := none }).frees
      = [Buf.log, Buf.err_kind, Buf.err_msg] ∧
    (commit_checkpoint
      { rc := 0, log := none, err_kind := none, err_msg := none }).frees
      = [Buf.log, Buf.err_kind, Buf.err_msg] ∧
    (rollback_checkpoint
      { rc := 0, log := none, err_kind := none, err_msg := none }).frees
      = [Buf.log, Buf.err_kind, Buf.err_msg] ∧
    (gen_conf
      { rc := 0, configs := some "c", log := none, err_kind := none,
        err_msg := none }).frees = [Buf.log, Buf.err_kind, Buf.err_msg] ∧
    (gen_diff
      { rc := 0, diff_state := some "d", err_kind := none,
        err_msg := none }).frees = [Buf.err_kind, Buf.err_msg] ∧
    (net_state_serialize true
      { rc := 0, formated_state := some "f", err_kind := none,
        err_msg := none }).frees = [Buf.err_kind, Buf.err_msg] ∧
    (net_state_from_policy
      { rc := 0, state := some "p", log := none, err_kind := none,
        err_msg := none }).frees = [Buf.log, Buf.err_kind, Buf.err_msg] ∧
    (retrieve_net_state_json
      { rc := 0, state := some "s", log := some (.decoded (.arr [.obj []])),
        err_kind := none, err_msg := none }).frees = [] ∧
    (apply_net_state false true true true
      { rc := 0, log := some (.decoded (.num 7)), err_kind := none,
        err_msg := none }).frees = [] ∧
    (commit_checkpoint
      { rc := 0, log := some (.decoded (.num 7)), err_kind := none,
        err_msg := none }).frees = [] ∧
    (rollback_checkpoint
      { rc := 0, log := some (.decoded (.num 7)), err_kind := none,
        err_msg := none }).frees = [] ∧
    (gen_conf
      { rc := 0, configs := some "c", log := some (.decoded (.num 7)),
        err_kind := none, err_msg := none }).frees = [] ∧
    (net_state_from_policy
      { rc := 0, state := some "p", log := some (.decoded (.num 7)),
        err_kind := none, err_msg := none }).frees = [] :=
  ⟨free_discipline_amended.1
     { rc := 0, state := some "s", log := none, err_kind := none,
       err_msg := none } ⟨[], rfl⟩,
   free_discipline_amended.2.1 false true true true
     { rc := 0, log := none, err_kind := none, err_msg := none } ⟨[], rfl⟩,
   free_discipline_amended.2.2.1
     { rc := 0, log := none, err_kind := none, err_msg := none } ⟨[], rfl⟩,
   free_discipline_amended.2.2.2.1
     { rc := 0, log := none, err_kind := none, err_msg := none } ⟨[], rfl⟩,
   (free_discipline_amended.2.2.2.2.1
     { rc := 0, configs := some "c", log := none, err_kind := none,
       err_msg := none } ⟨[], rfl⟩).1,
   (free_discipline_amended.2.2.2.2.2.1
     { rc := 0, diff_state := some "d", err_kind := none,
       err_msg := none }).1,
   (free_discipline_amended.2.2.2.2.2.2.1 true
     { rc := 0, formated_state := some "f", err_kind := none,
       err_msg := none }).1,
   (free_discipline_amended.2.2.2.2.2.2.2.1
     { rc := 0, state := some "p", log := none, err_kind := none,
       err_msg := none } ⟨[], rfl⟩).1,
   free_discipline_amended.2.2.2.2.2.2.2.2.1
     { rc := 0, state := some "s", log := some (.decoded (.arr [.obj []])),
       err_kind := none, err_msg := none }
     (fun _ h => Except.noConfusion h),
   free_discipline_amended.2.2.2.2.2.2.2.2.2.1 false true true true
     { rc := 0, log := some (.decoded (.num 7)), err_kind := none,
       err_msg := none }
     (fun _ h => Except.noConfusion h),
   free_discipline_amended.2.2.2.2.2.2.2.2.2.2.1
     { rc := 0, log := some (.decoded (.num 7)), err_kind := none,
       err_msg := none }
     (fun _ h => Except.noConfusion h),
   free_discipline_amended.2.2.2.2.2.2.2.2.2.2.2.1
     { rc := 0, log := some (.decoded (.num 7)), err_kind := none,
       err_msg := none }
     (fun _ h => Except.noConfusion h),
   free_discipline_amended.2.2.2.2.2.2.2.2.2.2.2.2.1
     { rc := 0, configs := some "c", log := some (.decoded (.num 7)),
       err_kind := none, err_msg := none }
     (fun _ h => Except.noConfusion h),
   free_discipline_amended.2.2.2.2.2.2.2.2.2.2.2.2.2
     { rc := 0, state := some "p", log := some (.decoded (.num 7)),
       err_kind := none, err_msg := none }
     (fun _ h => Except.noConfusion h)⟩

/-- C8 counterexample: a retrieval whose engine status is zero (success) can
still raise — when the log payload decodes to a record lacking the required
fields, `parse_log` raises `KeyError` before the status code is even
inspected, so "status zero raises nothing" is false. -/
theorem rc_zero_can_raise_cex :
    (retrieve_net_state_json
      { rc := 0, state := some "s", log := some (.decoded (.arr [.obj [("time",
          .str "t")]])), err_kind := some "k", err_msg := some "m" }).result
      = .error (.exc .keyError) :=
  rfl

/-- C8 amended: provided the log payload parses without raising (vacuous for
diff and serialize, which parse no log) and the engine populates the
primary buffer on success, every operation raises if and only if the
status code is nonzero, and on a zero status returns its decoded success
payload (`None` for apply, unit for checkpoint commit/rollback). -/
theorem status_code_error_iff_amended :
    (∀ e : RetrieveResp, log_ok e.log → (e.rc = NMSTATE_PASS → e.state ≠ none) →
      (is_err (retrieve_net_state_json e).result = true ↔ e.rc ≠ NMSTATE_PASS) ∧
      (∀ s, e.rc = NMSTATE_PASS → e.state = some s →
        (retrieve_net_state_json e).result = .ok s)) ∧
    (∀ (ko vc sd cm : Bool) (e : ApplyResp), log_ok e.log →
      (is_err (apply_net_state ko vc sd cm e).result = true ↔ e.rc ≠ NMSTATE_PASS) ∧
      (e.rc = NMSTATE_PASS → (apply_net_state ko vc sd cm e).result = .ok none)) ∧
    (∀ e : CheckpointResp, log_ok e.log →
      (is_err (commit_checkpoint e).result = true ↔ e.rc ≠ NMSTATE_PASS) ∧
      (e.rc = NMSTATE_PASS → (commit_checkpoint e).result = .ok ())) ∧
    (∀ e : CheckpointResp, log_ok e.log →
      (is_err (rollback_checkpoint e).result = true ↔ e.rc ≠ NMSTATE_PASS) ∧
      (e.rc = NMSTATE_PASS → (rollback_checkpoint e).result = .ok ())) ∧
    (∀ e : GenConfResp, log_ok e.log → (e.rc = NMSTATE_PASS → e.configs ≠ none) →
      (is_err (gen_conf e).result = true ↔ e.rc ≠ NMSTATE_PASS) ∧
      (∀ s, e.rc = NMSTATE_PASS → e.configs = some s →
        (gen_conf e).result = .ok s)) ∧
    (∀ e : GenDiffResp, (e.rc = NMSTATE_PASS → e.diff_state ≠ none) →
      (is_err (gen_diff e).result = true ↔ e.rc ≠ NMSTATE_PASS) ∧
      (∀ s, e.rc = NMSTATE_PASS → e.diff_state = some s →
        (gen_diff e).result = .ok s)) ∧
    (∀ (u : Bool) (e : FormatResp),
      (e.rc = NMSTATE_PASS → e.formated_state ≠ none) →
      (is_err (net_state_serialize u e).result = true ↔ e.rc ≠ NMSTATE_PASS) ∧
      (∀ s, e.rc = NMSTATE_PASS → e.formated_state = some s →
        (net_state_serialize u e).result = .ok s)) ∧
    (∀ e : PolicyResp, log_ok e.log → (e.rc = NMSTATE_PASS → e.state ≠ none) →
      (is_err (net_state_from_policy e).result = true ↔ e.rc ≠ NMSTATE_PASS) ∧
      (∀ s, e.rc = NMSTATE_PASS → e.state = some s →
        (net_state_from_policy e).result = .ok s)) := by
  refine ⟨?_, ?_, ?_, ?_, ?_, ?_, ?_, ?_⟩
  · rintro e ⟨l, hl⟩ hpop
    constructor
    · by_cases hrc : e.rc = NMSTATE_PASS
      · cases hstate : e.state with
        | none => exact absurd hstate (hpop hrc)
        | some s =>
          unfold retrieve_net_state_json
          simp [hl, hrc, hstate, is_err]
      · unfold retrieve_net_state_json
        simp [hl, hrc, is_err]
    · intro s hrc hs
      unfold retrieve_net_state_json
      simp [hl, hrc, hs]
  · rintro ko vc sd cm e ⟨l, hl⟩
    constructor
    · by_cases hrc : e.rc = NMSTATE_PASS
      · unfold apply_net_state
        simp [hl, hrc, is_err]
      · unfold apply_net_state
        cases hme : map_error e.err_kind e.err_msg <;>
          simp [hl, hrc, hme, is_err]
    · intro hrc
      unfold apply_net_state
      simp [hl, hrc]
  · rintro e ⟨l, hl⟩
    constructor
    · by_cases hrc : e.rc = NMSTATE_PASS
      · unfold commit_checkpoint
        simp [hl, hrc, is_err]
      · unfold commit_checkpoint
        cases hme : map_error e.err_kind e.err_msg <;>
          simp [hl, hrc, hme, is_err]
    · intro hrc
      unfold commit_checkpoint
      simp [hl, hrc]
  · rintro e ⟨l, hl⟩
    constructor
    · by_cases hrc : e.rc = NMSTATE_PASS
      · unfold rollback_checkpoint
        simp [hl, hrc, is_err]
      · unfold rollback_checkpoint
        cases hme : map_error e.err_kind e.err_msg <;>
          simp [hl, hrc, hme, is_err]
    · intro hrc
      unfold rollback_checkpoint
      simp [hl, hrc]
  · rintro e ⟨l, hl⟩ hpop
    constructor
    · by_cases hrc : e.rc = NMSTATE_PASS
      · cases hc : e.configs with
        | none => exact absurd hc (hpop hrc)
        | some s =>
          unfold gen_conf
          simp [hl, hrc, hc, is_err]
      · unfold gen_conf
        cases hme : map_error e.err_kind e.err_msg <;>
          simp [hl, hrc, hme, is_err]
    · intro s hrc hs
      unfold gen_conf
      simp [hl, hrc, hs]
  · rintro e hpop
    constructor
    · by_cases hrc : e.rc = NMSTATE_PASS
      · cases hd : e.diff_state with
        | none => exact absurd hd (hpop hrc)
        | some s =>
          unfold gen_diff
          simp [hrc, hd, is_err]
      · unfold gen_diff
        cases hme : map_error e.err_kind e.err_msg <;>
          simp [hrc, hme, is_err]
    · intro s hrc hs
      unfold gen_diff
      simp [hrc, hs]
  · rintro u e hpop
    constructor
    · by_cases hrc : e.rc = NMSTATE_PASS
      · cases hd : e.formated_state with
        | none => exact absurd hd (hpop hrc)
        | some s =>
          unfold net_state_serialize
          simp [hrc, hd, is_err]
      · unfold net_state_serialize
        cases hme : map_error e.err_kind e.err_msg <;>
          simp [hrc, hme, is_err]
    · intro s hrc hs
      unfold net_state_serialize
      simp [hrc, hs]
  · rintro e ⟨l, hl⟩ hpop
    constructor
    · by_cases hrc : e.rc = NMSTATE_PASS
      · cases hs : e.state with
        | none => exact absurd hs (hpop hrc)
        | some s =>
          unfold net_state_from_policy
          simp [hl, hrc, hs, is_err]
      · unfold net_state_from_policy
        cases hme : map_error e.err_kind e.err_msg <;>
          simp [hl, hrc, hme, is_err]
    · intro s hrc hs
      unfold net_state_from_policy
      simp [hl, hrc, hs]

/-- Witness for C8's amended statement at one concrete call per
operation. -/
theorem status_code_error_iff_amended_witness :
    (retrieve_net_state_json
      { rc := 0, state := some "s", log := none, err_kind := none,
        err_msg := none }).result = .ok "s" ∧
    is_err (apply_net_state false true true true
      { rc := 3, log := none, err_kind := some "k",
        err_msg := some "m" }).result = true ∧
    (commit_checkpoint
      { rc := 0, log := none, err_kind := none, err_msg := none }).result
      = .ok () ∧
    (rollback_checkpoint
      { rc := 0, log := none, err_kind := none, err_msg := none }).result
      = .ok () ∧
    (gen_conf
      { rc := 0, configs := some "c", log := none, err_kind := none,
        err_msg := none }).result = .ok "c" ∧
    (gen_diff
      { rc := 0, diff_state := some "d", err_kind := none,
        err_msg := none }).result = .ok "d" ∧
    (net_state_serialize true
      { rc := 0, formated_state := some "f", err_kind := none,
        err_msg := none }).result = .ok "f" ∧
    (net_state_from_policy
      { rc := 0, state := some "p", log := none, err_kind := none,
        err_msg := none }).result = .ok "p" :=
  ⟨(status_code_error_iff_amended.1
     { rc := 0, state := some "s", log := none, err_kind := none,
       err_msg := none } ⟨[], rfl⟩
     (fun _ h => Option.noConfusion h)).2 "s" rfl rfl,
   (status_code_error_iff_amended.2.1 false true true true
     { rc := 3, log := none, err_kind := some "k",
       err_msg := some "m" } ⟨[], rfl⟩).1.mpr (by decide),
   (status_code_error_iff_amended.2.2.1
     { rc := 0, log := none, err_kind := none, err_msg := none }
     ⟨[], rfl⟩).2 rfl,
   (status_code_error_iff_amended.2.2.2.1
     { rc := 0, log := none, err_kind := none, err_msg := none }
     ⟨[], rfl⟩).2 rfl,
   (status_code_error_iff_amended.2.2.2.2.1
     { rc := 0, configs := some "c", log := none, err_kind := none,
       err_msg := none } ⟨[], rfl⟩
     (fun _ h => Option.noConfusion h)).2 "c" rfl rfl,
   (status_code_error_iff_amended.2.2.2.2.2.1
     { rc := 0, diff_state := some "d", err_kind := none, err_msg := none }
     (fun _ h => Option.noConfusion h)).2 "d" rfl rfl,
   (status_code_error_iff_amended.2.2.2.2.2.2.1 true
     { rc := 0, formated_state := some "f", err_kind := none,
       err_msg := none }
     (fun _ h => Option.noConfusion h)).2 "f" rfl rfl,
   (status_code_error_iff_amended.2.2.2.2.2.2.2
     { rc := 0, state := some "p", log := none, err_kind := none,
       err_msg := none } ⟨[], rfl⟩
     (fun _ h => Option.noConfusion h)).2 "p" rfl rfl⟩
